import Mathlib

/-!
Shallow embedding of `langchain_community`'s Reddit commenting adapter:
  * `libs/community/langchain_community/utilities/reddit_commenter.py`
    (`RedditCommentAPIWrapper`: `validate_environment`, `run`)
  * `libs/community/langchain_community/tools/reddit/comment.py`
    (`RedditCommentSchema`, `RedditCommentRun`)

The remote service (the `praw` client library) is an external collaborator:
it is modelled as an oracle giving the outcome of each remote call, and the
calls issued are recorded in an explicit effect trace so that properties
about "which remote calls happen" can be stated.
-/

namespace RedditComment

/-- The process environment: a partial map from variable names to values. -/
def Env : Type := String → Option String

/-- A comment object returned by the remote service; the code only reads its
`permalink` attribute. -/
structure Comment where
  permalink : String
deriving Repr, DecidableEq

/-- Oracle for the behaviour of an authenticated `praw.Reddit` session handle.
`submissionResult id` is the outcome of `reddit_client.submission(id=...)`
(a handle for the submission, here identified by a string, or a failure
cause); `replyResult s text` is the outcome of `submission.reply(text)`. -/
structure RedditClient where
  submissionResult : String → Except String String
  replyResult : String → String → Except String Comment

/-- The five resolved credential strings passed to the session factory. -/
structure Credentials where
  client_id : String
  client_secret : String
  user_agent : String
  username : String
  password : String
deriving Repr, DecidableEq

/-- Model of the `praw` client library: its `Reddit` constructor is the
session factory turning credentials into a session handle. -/
structure PrawModule where
  Reddit : Credentials → RedditClient

/-- The runtime environment seen at construction time: the process
environment and the `praw` module (`none` models `ImportError`). -/
structure Runtime where
  env : Env
  praw : Option PrawModule

/-- The explicit keyword arguments given to the wrapper constructor
(the `values` dict seen by the `model_validator`). -/
structure ConstructionValues where
  reddit_client_id : Option String := none
  reddit_client_secret : Option String := none
  reddit_user_agent : Option String := none
  reddit_username : Option String := none
  reddit_password : Option String := none

/-- Errors surfaced by wrapper construction: `ConfigurationError` carries the
name of the environment variable of the unresolved credential;
`DependencyMissingError` carries the import-failure message. -/
inductive ConstructionError where
  | ConfigurationError (envKey : String)
  | DependencyMissingError (msg : String)
deriving Repr, DecidableEq

/-- Error surfaced by the comment operation, wrapping the cause reported by
the remote service. -/
structure RemoteOperationError where
  cause : String
deriving Repr, DecidableEq

/-- Observable side effects on the outside world: one session-handle
construction (a call of the session factory), one submission lookup, or one
reply submission (the remote write). -/
inductive Effect where
  | createSession (creds : Credentials)
  | lookup (id : String)
  | reply (handle : String) (text : String)
deriving Repr, DecidableEq

/-- Modelled from the spec: `get_from_dict_or_env` lives in
`langchain_core.utils`, which is not part of the sources under review.
Per the spec, each configuration item is resolved from the explicit value
when present, otherwise from the named environment fallback, and an
unresolved item is a configuration error naming the variable. -/
def get_from_dict_or_env (explicit : Option String) (envKey : String)
    (env : Env) : Except ConstructionError String :=
  match explicit with
  | some v => .ok v
  | none =>
    match env envKey with
    | some v => .ok v
    | none => .error (.ConfigurationError envKey)

/-- The credential-resolution half of `validate_environment`: the five
`get_from_dict_or_env` calls, in source order. -/
def resolveCredentials (values : ConstructionValues) (env : Env) :
    Except ConstructionError Credentials :=
  match get_from_dict_or_env values.reddit_client_id "REDDIT_CLIENT_ID" env with
  | .error e => .error e
  | .ok reddit_client_id =>
    match get_from_dict_or_env values.reddit_client_secret
        "REDDIT_CLIENT_SECRET" env with
    | .error e => .error e
    | .ok reddit_client_secret =>
      match get_from_dict_or_env values.reddit_user_agent
          "REDDIT_USER_AGENT" env with
      | .error e => .error e
      | .ok reddit_user_agent =>
        match get_from_dict_or_env values.reddit_username
            "REDDIT_USERNAME" env with
        | .error e => .error e
        | .ok reddit_username =>
          match get_from_dict_or_env values.reddit_password
              "REDDIT_PASSWORD" env with
          | .error e => .error e
          | .ok reddit_password =>
            .ok {
              client_id := reddit_client_id
              client_secret := reddit_client_secret
              user_agent := reddit_user_agent
              username := reddit_username
              password := reddit_password }

/-- The wrapper object: the session handle plus the five stored credential
fields (declared `Optional[str]` in the source, set by the validator). -/
structure RedditCommentAPIWrapper where
  reddit_client : RedditClient
  reddit_client_id : Option String
  reddit_client_secret : Option String
  reddit_user_agent : Option String
  reddit_username : Option String
  reddit_password : Option String

/-- `RedditCommentAPIWrapper.validate_environment`: resolve the five
credentials in order, then import `praw` (failure is the dependency error
with the source's message), then call the session factory once and store
everything. The second component is the trace of effects performed. -/
def validate_environment (values : ConstructionValues) (rt : Runtime) :
    Except ConstructionError RedditCommentAPIWrapper × List Effect :=
  match resolveCredentials values rt.env with
  | .error e => (.error e, [])
  | .ok creds =>
    match rt.praw with
    | none =>
      (.error (.DependencyMissingError
        "praw package not found. Please install with: pip install praw"), [])
    | some praw =>
      let reddit_client := praw.Reddit creds
      (.ok {
        reddit_client := reddit_client
        reddit_client_id := some creds.client_id
        reddit_client_secret := some creds.client_secret
        reddit_user_agent := some creds.user_agent
        reddit_username := some creds.username
        reddit_password := some creds.password },
       [.createSession creds])

/-- `RedditCommentAPIWrapper.run`: look the submission up through the stored
session handle, post the reply, and format the confirmation string from the
permalink the service reports. Remote failures propagate as a
`RemoteOperationError` wrapping the cause. The second component is the trace
of remote calls issued. -/
def RedditCommentAPIWrapper.run (self : RedditCommentAPIWrapper)
    (submission_id : String) (comment_text : String) :
    Except RemoteOperationError String × List Effect :=
  match self.reddit_client.submissionResult submission_id with
  | .error cause => (.error ⟨cause⟩, [.lookup submission_id])
  | .ok submission =>
    match self.reddit_client.replyResult submission comment_text with
    | .error cause =>
      (.error ⟨cause⟩, [.lookup submission_id, .reply submission comment_text])
    | .ok new_comment =>
      (.ok ("Comment posted! View at: https://www.reddit.com"
          ++ new_comment.permalink),
       [.lookup submission_id, .reply submission comment_text])

/-- `RedditCommentSchema`: the tool's input schema, exactly two string
fields. -/
structure RedditCommentSchema where
  submission_id : String
  comment_text : String
deriving Repr, DecidableEq

/-- A raw tool invocation as the host framework receives it: each schema
field either supplied (a string) or omitted. -/
structure ToolInput where
  submission_id : Option String := none
  comment_text : Option String := none

/-- Schema validation failure, naming the missing required field. -/
structure SchemaValidationError where
  missingField : String
deriving Repr, DecidableEq

/-- Modelled from the spec: the host framework (`langchain_core`'s
`BaseTool`, not part of the sources under review) validates a raw invocation
against the args schema; both fields are required, with no defaults, so an
input omitting either is rejected. -/
def RedditCommentSchema.validate (input : ToolInput) :
    Except SchemaValidationError RedditCommentSchema :=
  match input.submission_id with
  | none => .error ⟨"submission_id"⟩
  | some sid =>
    match input.comment_text with
    | none => .error ⟨"comment_text"⟩
    | some text => .ok ⟨sid, text⟩

/-- `RedditCommentRun`: the tool object, with the source's default `name`
and `description` and the wrapped `RedditCommentAPIWrapper`. -/
structure RedditCommentRun where
  name : String := "reddit_comment"
  description : String :=
    "A tool that posts a comment to a given Reddit submission by its ID. "
      ++ "Useful when you want to respond to a specific post."
  api_wrapper : RedditCommentAPIWrapper

/-- `RedditCommentRun._run`: delegate to the wrapper's `run` with the same
two arguments (the optional callback manager is unused). -/
def RedditCommentRun._run (self : RedditCommentRun)
    (submission_id : String) (comment_text : String)
    (run_manager : Option Unit := none) :
    Except RemoteOperationError String × List Effect :=
  self.api_wrapper.run submission_id comment_text

/-- An error surfaced by a framework-level tool invocation: either schema
validation failed or the delegated operation raised. -/
inductive ToolError where
  | schema (e : SchemaValidationError)
  | remote (e : RemoteOperationError)
deriving Repr, DecidableEq

/-- Modelled from the spec: the host framework's tool invocation validates
the raw input against the args schema first and only then calls `_run`; a
schema failure happens before any remote call is attempted. -/
def RedditCommentRun.invoke (self : RedditCommentRun) (input : ToolInput) :
    Except ToolError String × List Effect :=
  match RedditCommentSchema.validate input with
  | .error e => (.error (.schema e), [])
  | .ok args =>
    match self._run args.submission_id args.comment_text with
    | (.error e, tr) => (.error (.remote e), tr)
    | (.ok s, tr) => (.ok s, tr)

/-- Number of remote write calls (reply submissions) in an effect trace. -/
def writeCount (tr : List Effect) : Nat :=
  tr.countP (fun e => match e with | .reply _ _ => true | _ => false)

/-- Number of session-factory calls in an effect trace. -/
def sessionCount (tr : List Effect) : Nat :=
  tr.countP (fun e => match e with | .createSession _ => true | _ => false)

/-! ### Concrete instances used by witnesses -/

/-- A concrete session-handle behaviour: every submission resolves to a
handle equal to its identifier, and every reply yields the permalink from
the spec's example. -/
def exampleClient : RedditClient where
  submissionResult := fun id => .ok id
  replyResult := fun _ _ => .ok ⟨"/r/test/comments/abc123/_/xyz789/"⟩

/-- A concrete wrapper holding `exampleClient` and the example credentials. -/
def exampleWrapper : RedditCommentAPIWrapper where
  reddit_client := exampleClient
  reddit_client_id := some "my_id"
  reddit_client_secret := some "my_secret"
  reddit_user_agent := some "my_user_agent"
  reddit_username := some "my_username"
  reddit_password := some "my_password"

/-- A concrete session-handle behaviour where every submission lookup fails
as not found. -/
def notFoundClient : RedditClient where
  submissionResult := fun _ => .error "submission not found"
  replyResult := fun _ _ => .error "submission not found"

/-- A concrete wrapper over `notFoundClient`. -/
def notFoundWrapper : RedditCommentAPIWrapper where
  reddit_client := notFoundClient
  reddit_client_id := some "my_id"
  reddit_client_secret := some "my_secret"
  reddit_user_agent := some "my_user_agent"
  reddit_username := some "my_username"
  reddit_password := some "my_password"

/-- A model `praw` module whose session factory yields `exampleClient`. -/
def examplePraw : PrawModule where
  Reddit := fun _ => exampleClient

/-- The example explicit constructor arguments, all five supplied. -/
def exampleValues : ConstructionValues where
  reddit_client_id := some "my_id"
  reddit_client_secret := some "my_secret"
  reddit_user_agent := some "my_user_agent"
  reddit_username := some "my_username"
  reddit_password := some "my_password"

/-- The credentials `exampleValues` resolve to. -/
def exampleCreds : Credentials where
  client_id := "my_id"
  client_secret := "my_secret"
  user_agent := "my_user_agent"
  username := "my_username"
  password := "my_password"

/-- Explicit arguments supplying four of the five credentials, with
`reddit_password` omitted. -/
def partialValues : ConstructionValues where
  reddit_client_id := some "my_id"
  reddit_client_secret := some "my_secret"
  reddit_user_agent := some "my_user_agent"
  reddit_username := some "my_username"

/-- A runtime with an empty process environment and `praw` importable. -/
def exampleRuntime : Runtime where
  env := fun _ => none
  praw := some examplePraw

/-- A runtime with an empty process environment and `praw` not importable. -/
def bareRuntime : Runtime where
  env := fun _ => none
  praw := none

/-! ### Helper lemmas -/

/-- A doubly-absent configuration item resolves to the configuration error
naming its environment variable. -/
theorem gfdoe_missing (v : Option String) (k : String) (env : Env)
    (h1 : v = none) (h2 : env k = none) :
    get_from_dict_or_env v k env = .error (.ConfigurationError k) := by
  simp [get_from_dict_or_env, h1, h2]

/-- Every resolution either succeeds or is the configuration error naming
the environment variable. -/
theorem gfdoe_shape (v : Option String) (k : String) (env : Env) :
    (∃ x, get_from_dict_or_env v k env = .ok x)
      ∨ get_from_dict_or_env v k env = .error (.ConfigurationError k) := by
  cases v with
  | some x => exact Or.inl ⟨x, rfl⟩
  | none =>
    cases hk : env k with
    | some x => exact Or.inl ⟨x, by simp [get_from_dict_or_env, hk]⟩
    | none => exact Or.inr (by simp [get_from_dict_or_env, hk])

/-- `run` never calls the session factory: its trace holds no
`createSession` effect. -/
theorem run_sessionCount_zero (w : RedditCommentAPIWrapper)
    (submission_id comment_text : String) :
    sessionCount (w.run submission_id comment_text).2 = 0 := by
  cases hl : w.reddit_client.submissionResult submission_id with
  | error cause => simp [RedditCommentAPIWrapper.run, hl, sessionCount]
  | ok s =>
    cases hr : w.reddit_client.replyResult s comment_text with
    | error cause =>
      simp [RedditCommentAPIWrapper.run, hl, hr, sessionCount]
    | ok c => simp [RedditCommentAPIWrapper.run, hl, hr, sessionCount]

/-! ### Claims about `RedditCommentAPIWrapper.run` -/

/-- C1: whenever the remote service resolves the submission and reports
relative permalink `p` for the newly created comment, `run` returns exactly
the string `"Comment posted! View at: https://www.reddit.com"` followed by
`p`. -/
theorem run_returns_permalink_confirmation
    (w : RedditCommentAPIWrapper) (submission_id comment_text s p : String)
    (hlookup : w.reddit_client.submissionResult submission_id = .ok s)
    (hreply : w.reddit_client.replyResult s comment_text = .ok ⟨p⟩) :
    (w.run submission_id comment_text).1 =
      .ok ("Comment posted! View at: https://www.reddit.com" ++ p) := by
  simp [RedditCommentAPIWrapper.run, hlookup, hreply]

/-- Witness for C1: the spec's example — submission `"abc123"`, comment
`"Hello from my script!"`, reported permalink
`/r/test/comments/abc123/_/xyz789/`. -/
theorem run_returns_permalink_confirmation_witness :
    (exampleWrapper.run "abc123" "Hello from my script!").1 =
      .ok "Comment posted! View at: https://www.reddit.com/r/test/comments/abc123/_/xyz789/" := by
  have h := run_returns_permalink_confirmation exampleWrapper "abc123"
    "Hello from my script!" "abc123" "/r/test/comments/abc123/_/xyz789/"
    rfl rfl
  simpa using h

/-- C3: every failure the remote service reports during submission lookup or
reply creation makes `run` yield a `RemoteOperationError` carrying the
underlying cause, and `run` returns no string in that case. -/
theorem run_remote_failure_raises
    (w : RedditCommentAPIWrapper) (submission_id comment_text cause : String)
    (h : w.reddit_client.submissionResult submission_id = .error cause
       ∨ ∃ s, w.reddit_client.submissionResult submission_id = .ok s
           ∧ w.reddit_client.replyResult s comment_text = .error cause) :
    (w.run submission_id comment_text).1 = .error ⟨cause⟩
      ∧ ∀ str, (w.run submission_id comment_text).1 ≠ .ok str := by
  rcases h with hfail | ⟨s, hok, hfail⟩
  · refine ⟨?_, ?_⟩
    · simp [RedditCommentAPIWrapper.run, hfail]
    · intro str
      simp [RedditCommentAPIWrapper.run, hfail]
  · refine ⟨?_, ?_⟩
    · simp [RedditCommentAPIWrapper.run, hok, hfail]
    · intro str
      simp [RedditCommentAPIWrapper.run, hok, hfail]

/-- Witness for C3: a submission the service reports as not found. -/
theorem run_remote_failure_raises_witness :
    (notFoundWrapper.run "abc123" "Hello from my script!").1 =
      .error ⟨"submission not found"⟩
      ∧ ∀ str,
        (notFoundWrapper.run "abc123" "Hello from my script!").1 ≠ .ok str :=
  run_remote_failure_raises notFoundWrapper "abc123" "Hello from my script!"
    "submission not found" (Or.inl rfl)

/-- C7: two invocations of `run` with the same arguments each issue their
own remote write (reply) call — two writes in total, no deduplication. -/
theorem run_twice_issues_two_writes
    (w : RedditCommentAPIWrapper) (submission_id comment_text s : String)
    (hlookup : w.reddit_client.submissionResult submission_id = .ok s) :
    writeCount (w.run submission_id comment_text).2 = 1
      ∧ writeCount ((w.run submission_id comment_text).2
          ++ (w.run submission_id comment_text).2) = 2 := by
  have h1 : writeCount (w.run submission_id comment_text).2 = 1 := by
    cases hr : w.reddit_client.replyResult s comment_text with
    | error cause =>
      simp [RedditCommentAPIWrapper.run, hlookup, hr, writeCount]
    | ok c =>
      simp [RedditCommentAPIWrapper.run, hlookup, hr, writeCount]
  refine ⟨h1, ?_⟩
  simp [writeCount, List.countP_append] at h1 ⊢
  omega

/-- Witness for C7: two identical calls on the example wrapper submit two
replies. -/
theorem run_twice_issues_two_writes_witness :
    writeCount (exampleWrapper.run "abc123" "Hello from my script!").2 = 1
      ∧ writeCount ((exampleWrapper.run "abc123" "Hello from my script!").2
          ++ (exampleWrapper.run "abc123" "Hello from my script!").2) = 2 :=
  run_twice_issues_two_writes exampleWrapper "abc123" "Hello from my script!"
    "abc123" rfl

/-- C10: `run` performs no local validation: for every pair of inputs,
including empty strings, the submission identifier is forwarded unchanged to
the lookup call, and once the lookup resolves the comment text is forwarded
unchanged to the reply call. -/
theorem run_forwards_inputs_unchanged
    (w : RedditCommentAPIWrapper) (submission_id comment_text : String) :
    (∃ rest, (w.run submission_id comment_text).2
        = .lookup submission_id :: rest)
      ∧ ∀ s, w.reddit_client.submissionResult submission_id = .ok s →
          (w.run submission_id comment_text).2
            = [.lookup submission_id, .reply s comment_text] := by
  constructor
  · cases hl : w.reddit_client.submissionResult submission_id with
    | error cause =>
      exact ⟨[], by simp [RedditCommentAPIWrapper.run, hl]⟩
    | ok s =>
      cases hr : w.reddit_client.replyResult s comment_text with
      | error cause =>
        exact ⟨[.reply s comment_text],
          by simp [RedditCommentAPIWrapper.run, hl, hr]⟩
      | ok c =>
        exact ⟨[.reply s comment_text],
          by simp [RedditCommentAPIWrapper.run, hl, hr]⟩
  · intro s hl
    cases hr : w.reddit_client.replyResult s comment_text with
    | error cause =>
      simp [RedditCommentAPIWrapper.run, hl, hr]
    | ok c =>
      simp [RedditCommentAPIWrapper.run, hl, hr]

/-- Witness for C10: even both-empty inputs are forwarded unchanged to the
remote calls. -/
theorem run_forwards_inputs_unchanged_witness :
    (exampleWrapper.run "" "").2 = [.lookup "", .reply "" ""] :=
  (run_forwards_inputs_unchanged exampleWrapper "" "").2 "" rfl

/-! ### Claims about the tool shim -/

/-- C8: the tool's `_run` returns exactly what the wrapper's `run` returns on
the same two arguments — a pure delegation, for any callback manager. -/
theorem tool_run_delegates_to_wrapper
    (t : RedditCommentRun) (submission_id comment_text : String)
    (run_manager : Option Unit) :
    t._run submission_id comment_text run_manager
      = t.api_wrapper.run submission_id comment_text := rfl

/-! ### Claims about construction (`validate_environment`) -/

/-- C2: when any one of the five credential fields has neither an explicit
constructor value nor an environment fallback, construction fails with a
`ConfigurationError` and performs no effect — in particular no session
construction. -/
theorem missing_credential_fails_construction
    (values : ConstructionValues) (rt : Runtime)
    (h : (values.reddit_client_id = none ∧ rt.env "REDDIT_CLIENT_ID" = none)
       ∨ (values.reddit_client_secret = none
            ∧ rt.env "REDDIT_CLIENT_SECRET" = none)
       ∨ (values.reddit_user_agent = none
            ∧ rt.env "REDDIT_USER_AGENT" = none)
       ∨ (values.reddit_username = none ∧ rt.env "REDDIT_USERNAME" = none)
       ∨ (values.reddit_password = none ∧ rt.env "REDDIT_PASSWORD" = none)) :
    (∃ k, (validate_environment values rt).1 = .error (.ConfigurationError k))
      ∧ (validate_environment values rt).2 = [] := by
  have hres : ∃ k, resolveCredentials values rt.env
      = .error (.ConfigurationError k) := by
    rcases h with ⟨h1, h2⟩ | ⟨h1, h2⟩ | ⟨h1, h2⟩ | ⟨h1, h2⟩ | ⟨h1, h2⟩
    · exact ⟨"REDDIT_CLIENT_ID",
        by simp [resolveCredentials, gfdoe_missing _ _ _ h1 h2]⟩
    · rcases gfdoe_shape values.reddit_client_id "REDDIT_CLIENT_ID" rt.env
          with ⟨x1, hx1⟩ | hx1
      · exact ⟨"REDDIT_CLIENT_SECRET",
          by simp [resolveCredentials, hx1, gfdoe_missing _ _ _ h1 h2]⟩
      · exact ⟨"REDDIT_CLIENT_ID", by simp [resolveCredentials, hx1]⟩
    · rcases gfdoe_shape values.reddit_client_id "REDDIT_CLIENT_ID" rt.env
          with ⟨x1, hx1⟩ | hx1
      · rcases gfdoe_shape values.reddit_client_secret "REDDIT_CLIENT_SECRET"
            rt.env with ⟨x2, hx2⟩ | hx2
        · exact ⟨"REDDIT_USER_AGENT",
            by simp [resolveCredentials, hx1, hx2,
              gfdoe_missing _ _ _ h1 h2]⟩
        · exact ⟨"REDDIT_CLIENT_SECRET", by simp [resolveCredentials, hx1, hx2]⟩
      · exact ⟨"REDDIT_CLIENT_ID", by simp [resolveCredentials, hx1]⟩
    · rcases gfdoe_shape values.reddit_client_id "REDDIT_CLIENT_ID" rt.env
          with ⟨x1, hx1⟩ | hx1
      · rcases gfdoe_shape values.reddit_client_secret "REDDIT_CLIENT_SECRET"
            rt.env with ⟨x2, hx2⟩ | hx2
        · rcases gfdoe_shape values.reddit_user_agent "REDDIT_USER_AGENT"
              rt.env with ⟨x3, hx3⟩ | hx3
          · exact ⟨"REDDIT_USERNAME",
              by simp [resolveCredentials, hx1, hx2, hx3,
                gfdoe_missing _ _ _ h1 h2]⟩
          · exact ⟨"REDDIT_USER_AGENT",
              by simp [resolveCredentials, hx1, hx2, hx3]⟩
        · exact ⟨"REDDIT_CLIENT_SECRET", by simp [resolveCredentials, hx1, hx2]⟩
      · exact ⟨"REDDIT_CLIENT_ID", by simp [resolveCredentials, hx1]⟩
    · rcases gfdoe_shape values.reddit_client_id "REDDIT_CLIENT_ID" rt.env
          with ⟨x1, hx1⟩ | hx1
      · rcases gfdoe_shape values.reddit_client_secret "REDDIT_CLIENT_SECRET"
            rt.env with ⟨x2, hx2⟩ | hx2
        · rcases gfdoe_shape values.reddit_user_agent "REDDIT_USER_AGENT"
              rt.env with ⟨x3, hx3⟩ | hx3
          · rcases gfdoe_shape values.reddit_username "REDDIT_USERNAME"
                rt.env with ⟨x4, hx4⟩ | hx4
            · exact ⟨"REDDIT_PASSWORD",
                by simp [resolveCredentials, hx1, hx2, hx3, hx4,
                  gfdoe_missing _ _ _ h1 h2]⟩
            · exact ⟨"REDDIT_USERNAME",
                by simp [resolveCredentials, hx1, hx2, hx3, hx4]⟩
          · exact ⟨"REDDIT_USER_AGENT",
              by simp [resolveCredentials, hx1, hx2, hx3]⟩
        · exact ⟨"REDDIT_CLIENT_SECRET", by simp [resolveCredentials, hx1, hx2]⟩
      · exact ⟨"REDDIT_CLIENT_ID", by simp [resolveCredentials, hx1]⟩
  obtain ⟨k, hk⟩ := hres
  exact ⟨⟨k, by simp [validate_environment, hk]⟩,
    by simp [validate_environment, hk]⟩

/-- Witness for C2: all of the environment empty and only `reddit_password`
omitted from the explicit arguments — construction fails with a
configuration error and an empty effect trace, `praw` being importable
notwithstanding. -/
theorem missing_credential_fails_construction_witness :
    (∃ k, (validate_environment partialValues exampleRuntime).1
        = .error (.ConfigurationError k))
      ∧ (validate_environment partialValues exampleRuntime).2 = [] :=
  missing_credential_fails_construction partialValues exampleRuntime
    (Or.inr (Or.inr (Or.inr (Or.inr ⟨rfl, rfl⟩))))

/-- C4: with all five credentials resolvable and `praw` importable,
construction succeeds, calls the session factory exactly once, stores the
handle it returns together with the five resolved credentials, and every
`run` on the resulting wrapper uses that stored handle and never calls the
session factory again. -/
theorem construction_creates_single_session
    (values : ConstructionValues) (rt : Runtime) (praw : PrawModule)
    (creds : Credentials)
    (hpraw : rt.praw = some praw)
    (hresolve : resolveCredentials values rt.env = .ok creds) :
    (validate_environment values rt).1 = .ok {
        reddit_client := praw.Reddit creds
        reddit_client_id := some creds.client_id
        reddit_client_secret := some creds.client_secret
        reddit_user_agent := some creds.user_agent
        reddit_username := some creds.username
        reddit_password := some creds.password }
      ∧ (validate_environment values rt).2 = [.createSession creds]
      ∧ sessionCount (validate_environment values rt).2 = 1
      ∧ ∀ w, (validate_environment values rt).1 = .ok w →
          w.reddit_client = praw.Reddit creds
            ∧ ∀ submission_id comment_text,
                sessionCount (w.run submission_id comment_text).2 = 0 := by
  have h1 : (validate_environment values rt).1 = .ok {
      reddit_client := praw.Reddit creds
      reddit_client_id := some creds.client_id
      reddit_client_secret := some creds.client_secret
      reddit_user_agent := some creds.user_agent
      reddit_username := some creds.username
      reddit_password := some creds.password } := by
    simp [validate_environment, hresolve, hpraw]
  refine ⟨h1, ?_, ?_, ?_⟩
  · simp [validate_environment, hresolve, hpraw]
  · simp [validate_environment, hresolve, hpraw, sessionCount]
  · intro w hw
    have hww := h1.symm.trans hw
    have hwrec := Except.ok.inj hww
    constructor
    · rw [← hwrec]
    · intro submission_id comment_text
      exact run_sessionCount_zero w submission_id comment_text

/-- Witness for C4: the example arguments in an empty environment with
`praw` importable — one `createSession` effect, and a `run` on the resulting
wrapper creates no further session. -/
theorem construction_creates_single_session_witness :
    (validate_environment exampleValues exampleRuntime).2
        = [.createSession exampleCreds]
      ∧ sessionCount (validate_environment exampleValues exampleRuntime).2 = 1
      ∧ sessionCount
          ((RedditCommentAPIWrapper.mk (examplePraw.Reddit exampleCreds)
              (some exampleCreds.client_id) (some exampleCreds.client_secret)
              (some exampleCreds.user_agent) (some exampleCreds.username)
              (some exampleCreds.password)).run "abc123" "hi").2 = 0 := by
  have h := construction_creates_single_session exampleValues exampleRuntime
    examplePraw exampleCreds rfl rfl
  exact ⟨h.2.1, h.2.2.1, ((h.2.2.2 _ h.1).2 "abc123" "hi")⟩

/-- C5: with all credentials resolvable but the `praw` library unavailable,
construction fails with the dependency error whose message names the `praw`
capability and carries the installation hint `pip install praw`. -/
theorem missing_praw_dependency_error
    (values : ConstructionValues) (rt : Runtime) (creds : Credentials)
    (hresolve : resolveCredentials values rt.env = .ok creds)
    (hpraw : rt.praw = none) :
    (validate_environment values rt).1 = .error (.DependencyMissingError
        "praw package not found. Please install with: pip install praw")
      ∧ (∃ post,
          "praw package not found. Please install with: pip install praw"
            = "praw" ++ post)
      ∧ (∃ pre,
          "praw package not found. Please install with: pip install praw"
            = pre ++ "pip install praw") := by
  refine ⟨by simp [validate_environment, hresolve, hpraw], ?_, ?_⟩
  · exact ⟨" package not found. Please install with: pip install praw",
      by decide⟩
  · exact ⟨"praw package not found. Please install with: ", by decide⟩

/-- Witness for C5: the example arguments in a runtime without `praw`. -/
theorem missing_praw_dependency_error_witness :
    (validate_environment exampleValues bareRuntime).1
      = .error (.DependencyMissingError
        "praw package not found. Please install with: pip install praw") :=
  (missing_praw_dependency_error exampleValues bareRuntime exampleCreds
    rfl rfl).1

/-- C9: credentials are resolved in the fixed order client id, client
secret, user agent, username, password, before the `praw` import is
attempted: whichever field is the first unresolved one names the
configuration error, masking later missing fields and masking a missing
`praw` dependency (the runtime, `praw` availability included, is arbitrary
in every conjunct). -/
theorem credential_resolution_order
    (values : ConstructionValues) (rt : Runtime) :
    ((values.reddit_client_id = none ∧ rt.env "REDDIT_CLIENT_ID" = none) →
        (validate_environment values rt).1
          = .error (.ConfigurationError "REDDIT_CLIENT_ID"))
      ∧ (∀ v1, get_from_dict_or_env values.reddit_client_id
            "REDDIT_CLIENT_ID" rt.env = .ok v1 →
          (values.reddit_client_secret = none
              ∧ rt.env "REDDIT_CLIENT_SECRET" = none) →
            (validate_environment values rt).1
              = .error (.ConfigurationError "REDDIT_CLIENT_SECRET"))
      ∧ (∀ v1 v2, get_from_dict_or_env values.reddit_client_id
            "REDDIT_CLIENT_ID" rt.env = .ok v1 →
          get_from_dict_or_env values.reddit_client_secret
            "REDDIT_CLIENT_SECRET" rt.env = .ok v2 →
          (values.reddit_user_agent = none
              ∧ rt.env "REDDIT_USER_AGENT" = none) →
            (validate_environment values rt).1
              = .error (.ConfigurationError "REDDIT_USER_AGENT"))
      ∧ (∀ v1 v2 v3, get_from_dict_or_env values.reddit_client_id
            "REDDIT_CLIENT_ID" rt.env = .ok v1 →
          get_from_dict_or_env values.reddit_client_secret
            "REDDIT_CLIENT_SECRET" rt.env = .ok v2 →
          get_from_dict_or_env values.reddit_user_agent
            "REDDIT_USER_AGENT" rt.env = .ok v3 →
          (values.reddit_username = none ∧ rt.env "REDDIT_USERNAME" = none) →
            (validate_environment values rt).1
              = .error (.ConfigurationError "REDDIT_USERNAME"))
      ∧ (∀ v1 v2 v3 v4, get_from_dict_or_env values.reddit_client_id
            "REDDIT_CLIENT_ID" rt.env = .ok v1 →
          get_from_dict_or_env values.reddit_client_secret
            "REDDIT_CLIENT_SECRET" rt.env = .ok v2 →
          get_from_dict_or_env values.reddit_user_agent
            "REDDIT_USER_AGENT" rt.env = .ok v3 →
          get_from_dict_or_env values.reddit_username
            "REDDIT_USERNAME" rt.env = .ok v4 →
          (values.reddit_password = none ∧ rt.env "REDDIT_PASSWORD" = none) →
            (validate_environment values rt).1
              = .error (.ConfigurationError "REDDIT_PASSWORD")) := by
  refine ⟨?_, ?_, ?_, ?_, ?_⟩
  · rintro ⟨h1, h2⟩
    simp [validate_environment, resolveCredentials,
      gfdoe_missing _ _ _ h1 h2]
  · rintro v1 hv1 ⟨h1, h2⟩
    simp [validate_environment, resolveCredentials, hv1,
      gfdoe_missing _ _ _ h1 h2]
  · rintro v1 v2 hv1 hv2 ⟨h1, h2⟩
    simp [validate_environment, resolveCredentials, hv1, hv2,
      gfdoe_missing _ _ _ h1 h2]
  · rintro v1 v2 v3 hv1 hv2 hv3 ⟨h1, h2⟩
    simp [validate_environment, resolveCredentials, hv1, hv2, hv3,
      gfdoe_missing _ _ _ h1 h2]
  · rintro v1 v2 v3 v4 hv1 hv2 hv3 hv4 ⟨h1, h2⟩
    simp [validate_environment, resolveCredentials, hv1, hv2, hv3, hv4,
      gfdoe_missing _ _ _ h1 h2]

/-- Witness for C9: with nothing supplied at all — every credential missing
and `praw` not importable — the error is the configuration error for the
first field, `REDDIT_CLIENT_ID`, not the dependency error and not a later
field's error. -/
theorem credential_resolution_order_witness :
    (validate_environment {} bareRuntime).1
      = .error (.ConfigurationError "REDDIT_CLIENT_ID") :=
  (credential_resolution_order {} bareRuntime).1 ⟨rfl, rfl⟩

/-- C6: the tool is named `reddit_comment`; its input schema has exactly the
two required string fields `submission_id` and `comment_text`: an invocation
omitting either fails schema validation with an empty effect trace (no
remote call), and an invocation supplying both validates to exactly those
two values. -/
theorem tool_name_and_schema
    (w : RedditCommentAPIWrapper) (input : ToolInput) :
    ({ api_wrapper := w } : RedditCommentRun).name = "reddit_comment"
      ∧ (input.submission_id = none →
          RedditCommentRun.invoke { api_wrapper := w } input
            = (.error (.schema ⟨"submission_id"⟩), []))
      ∧ (∀ sid, input.submission_id = some sid → input.comment_text = none →
          RedditCommentRun.invoke { api_wrapper := w } input
            = (.error (.schema ⟨"comment_text"⟩), []))
      ∧ (∀ sid text, input.submission_id = some sid →
          input.comment_text = some text →
            RedditCommentSchema.validate input = .ok ⟨sid, text⟩) := by
  refine ⟨rfl, ?_, ?_, ?_⟩
  · intro h
    simp [RedditCommentRun.invoke, RedditCommentSchema.validate, h]
  · intro sid h1 h2
    simp [RedditCommentRun.invoke, RedditCommentSchema.validate, h1, h2]
  · intro sid text h1 h2
    simp [RedditCommentSchema.validate, h1, h2]

/-- Witness for C6: an invocation supplying only `comment_text` is rejected
by schema validation with no remote call issued. -/
theorem tool_name_and_schema_witness :
    RedditCommentRun.invoke { api_wrapper := exampleWrapper }
        { comment_text := some "Hello from my script!" }
      = (.error (.schema ⟨"submission_id"⟩), []) :=
  (tool_name_and_schema exampleWrapper
    { comment_text := some "Hello from my script!" }).2.1 rfl

end RedditComment
